import Mathlib

set_option maxRecDepth 8192

/-!
Verification of the AMT-8000 integration against its specification.

The definitions below are a shallow embedding of the Python sources:
`custom_components/amt8000/isec2/client.py` (frame building, checksum,
status decoding) and `custom_components/amt8000/coordinator.py` (the
polling coordinator).  Bytes are modelled as `Nat`, byte strings as
`List Nat`, Python dicts keyed by `str(n)` as association lists keyed by
`n` (the `str` keying is injective, so nothing is lost), and raising
Python code as `Except`-valued functions.
-/

/-- Python exceptions that can escape the functions modelled here. -/
inductive PyErr where
  | indexError
  deriving DecidableEq, Repr

/-- Python list indexing `l[i]`: raises IndexError when out of range. -/
def pyGet (l : List Nat) (i : Nat) : Except PyErr Nat :=
  match l.get? i with
  | some v => .ok v
  | none => .error .indexError

/-- Python slice `l[a:b]` for the nonnegative bounds used in the sources.
A negative Python stop (never produced here with start 8 unless the
length field is below 2, where the slice is empty either way) also
yields the empty list, as `Nat` subtraction does. -/
def pySlice (l : List Nat) (a b : Nat) : List Nat :=
  (l.drop a).take (b - a)

/-- merge_octets from isec2/client.py: `buf[0] * 256 + buf[1]`,
raising IndexError when the buffer has fewer than two bytes. -/
def merge_octets (buf : List Nat) : Except PyErr Nat :=
  match buf with
  | b0 :: b1 :: _ => .ok (b0 * 256 + b1)
  | _ => .error .indexError

/-- calculate_checksum from isec2/client.py: XOR of all bytes, then
XOR 0xFF, masked to one byte. -/
def calculate_checksum (buffer : List Nat) : Nat :=
  ((buffer.foldl (fun c v => c ^^^ v) 0) ^^^ 0xFF) &&& 0xFF

/-- Module constant dst_id. -/
def dst_id : List Nat := [0x00, 0x00]

/-- Module constant our_id. -/
def our_id : List Nat := [0x8F, 0xFF]

/-- Opcode for the auth command. -/
def cmd_auth : List Nat := [0xF0, 0xF0]

/-- Opcode for the status command. -/
def cmd_status : List Nat := [0x0B, 0x4A]

/-- Opcode for the arm/disarm command. -/
def cmd_arm_disarm : List Nat := [0x40, 0x1e]

/-- Opcode for the panic command. -/
def cmd_panic : List Nat := [0x40, 0x1a]

/-- Opcode for the paired-sensors command. -/
def cmd_paired_sensors : List Nat := [0x0B, 0x01]

/-- The status dict produced by build_status in isec2/client.py. -/
structure PanelData where
  model : String
  version : String
  status : String
  zonesFiring : Bool
  zonesClosed : Bool
  siren : Bool
  zones : List (Nat × String)
  batteryStatus : String
  tamper : Bool
  deriving DecidableEq, Repr

/-- Problem list collected for one zone status byte in the zone loop of
build_status, in source order. -/
def zone_problems (zb : Nat) : List String :=
  (if 0 < zb &&& 0x01 then ["open_triggered"] else []) ++
  (if 0 < zb &&& 0x02 then ["comm_failure"] else []) ++
  (if 0 < zb &&& 0x04 then ["bypassed"] else []) ++
  (if 0 < zb &&& 0x08 then ["low_battery"] else []) ++
  (if 0 < zb &&& 0x10 then ["tamper"] else []) ++
  (if 0 < zb &&& 0x20 then ["memory_triggered"] else [])

/-- Zone loop of build_status: reads n zone bytes starting at payload
index 84 + i; an IndexError on the byte read breaks the loop; a zone
with a nonempty problem list is stored under key i + 1 (str(i+1) in the
source) with the problems joined by commas. -/
def build_zones_loop (p : List Nat) : Nat → Nat → List (Nat × String)
  | _, 0 => []
  | i, n + 1 =>
    match p.get? (84 + i) with
    | none => []
    | some zb =>
      (if zone_problems zb = [] then []
       else [(i + 1, String.intercalate "," (zone_problems zb))]) ++
      build_zones_loop p (i + 1) n

/-- Zones mapping of build_status: max_zones = min(64, len(payload) - 84). -/
def build_zones (p : List Nat) : List (Nat × String) :=
  build_zones_loop p 0 (min 64 (p.length - 84))

/-- Armed-state label computed from the offset-20 status byte: the
branch body of get_status in isec2/client.py. -/
def armed_label (b : Nat) : String :=
  if (b >>> 5) &&& 0x03 = 0x00 then "disarmed"
  else if (b >>> 5) &&& 0x03 = 0x01 then "partial_armed"
  else if (b >>> 5) &&& 0x03 = 0x03 then "armed_away"
  else "unknown"

/-- get_status from isec2/client.py; the IndexError it raises on a
payload without byte 20 is caught by the try block in build_status,
hence the Option. -/
def get_status (payload : List Nat) : Option String :=
  (payload.get? 20).map armed_label

/-- Battery label from the offset-134 byte: the branch body of
battery_status_for in isec2/client.py. -/
def battery_label (batt : Nat) : String :=
  if batt = 0x01 then "dead"
  else if batt = 0x02 then "low"
  else if batt = 0x03 then "middle"
  else if batt = 0x04 then "full"
  else "unknown"

/-- battery_status_for from isec2/client.py; its possible IndexError is
caught by the try block in build_status. -/
def battery_status_for (resp : List Nat) : Option String :=
  (resp.get? 134).map battery_label

/-- The try block of build_status: the field reads at payload offsets
1, 2, 3, 20, the guarded battery read (offset 134 only when the payload
has at least 135 bytes) and the guarded tamper read (offset 71 only when
the payload has at least 72 bytes).  Any failing read is caught by the
except clause, which makes build_status return None. -/
def build_status_fields (p : List Nat) (model : String)
    (zones : List (Nat × String)) : Option PanelData := do
  let v1 ← p.get? 1
  let v2 ← p.get? 2
  let v3 ← p.get? 3
  let st ← get_status p
  let b20 ← p.get? 20
  let batteryStatus ← if 135 ≤ p.length then battery_status_for p else some "unknown"
  let tamper ←
    if 72 ≤ p.length then (p.get? 71).map (fun t => decide (0 < t &&& 2))
    else some false
  pure { model := model,
         version := toString v1 ++ "." ++ toString v2 ++ "." ++ toString v3,
         status := st,
         zonesFiring := decide (0 < b20 &&& 0x8),
         zonesClosed := decide (0 < b20 &&& 0x4),
         siren := decide (0 < b20 &&& 0x2),
         zones := zones,
         batteryStatus := batteryStatus,
         tamper := tamper }

/-- Body of build_status once the payload has been sliced out of the
frame: the minimum-length guard, the model byte read at offset 0 (which
sits outside the try block, so an IndexError there would escape — it
cannot, thanks to the guard), the zone loop, and the try block. -/
def decode_payload (payload : List Nat) : Except PyErr (Option PanelData) :=
  if payload.length < 22 then .ok none
  else
    match pyGet payload 0 with
    | .error e => .error e
    | .ok p0 =>
      let model := if p0 = 0x8b then "AMT-8000" else "Unknown"
      .ok (build_status_fields payload model (build_zones payload))

/-- build_status from isec2/client.py, applied to a raw frame: reads the
length field from bytes 4-5 (merge_octets may raise IndexError on a
frame shorter than 6 bytes), slices the payload as data[8 : 8 + length - 2]
and decodes it. -/
def build_status (data : List Nat) : Except PyErr (Option PanelData) :=
  match merge_octets (pySlice data 4 6) with
  | .error e => .error e
  | .ok lenField => decode_payload (pySlice data 8 (8 + (lenField - 2)))

/-- Auth request bytes built by Client.auth, before the checksum. -/
def auth_data (device_type : Nat) (pass_array : List Nat)
    (software_version : Nat) : List Nat :=
  dst_id ++ our_id ++ [0x00, 0x0a] ++ cmd_auth ++ [device_type] ++
    pass_array ++ [software_version]

/-- Complete auth frame sent by Client.auth. -/
def auth_frame (device_type : Nat) (pass_array : List Nat)
    (software_version : Nat) : List Nat :=
  auth_data device_type pass_array software_version ++
    [calculate_checksum (auth_data device_type pass_array software_version)]

/-- Status request bytes built by Client.status, before the checksum. -/
def status_data : List Nat := dst_id ++ our_id ++ [0x00, 0x02] ++ cmd_status

/-- Complete status frame sent by Client.status. -/
def status_frame : List Nat := status_data ++ [calculate_checksum status_data]

/-- Arm request bytes built by Client.arm_system: partition 0 is
remapped to 0xFF first. -/
def arm_data (partition : Nat) : List Nat :=
  dst_id ++ our_id ++ [0x00, 0x04] ++ cmd_arm_disarm ++
    [if partition = 0 then 0xFF else partition, 0x01]

/-- Complete arm frame sent by Client.arm_system. -/
def arm_frame (partition : Nat) : List Nat :=
  arm_data partition ++ [calculate_checksum (arm_data partition)]

/-- Disarm request bytes built by Client.disarm_system. -/
def disarm_data (partition : Nat) : List Nat :=
  dst_id ++ our_id ++ [0x00, 0x04] ++ cmd_arm_disarm ++
    [if partition = 0 then 0xFF else partition, 0x00]

/-- Complete disarm frame sent by Client.disarm_system. -/
def disarm_frame (partition : Nat) : List Nat :=
  disarm_data partition ++ [calculate_checksum (disarm_data partition)]

/-- Panic request bytes built by Client.panic. -/
def panic_data (t : Nat) : List Nat :=
  dst_id ++ our_id ++ [0x00, 0x03] ++ cmd_panic ++ [t]

/-- Complete panic frame sent by Client.panic. -/
def panic_frame (t : Nat) : List Nat :=
  panic_data t ++ [calculate_checksum (panic_data t)]

/-- Paired-sensors request bytes built by Client.get_paired_sensors. -/
def paired_data : List Nat :=
  dst_id ++ our_id ++ [0x00, 0x02] ++ cmd_paired_sensors

/-- Complete paired-sensors frame sent by Client.get_paired_sensors. -/
def paired_frame : List Nat := paired_data ++ [calculate_checksum paired_data]

/-- Error raised by the client for communication problems
(CommunicationError in isec2/client.py). -/
inductive CommErr where
  | communicationError
  deriving DecidableEq, Repr

/-- Password loop of Client.auth: for each character of the password,
raise CommunicationError unless the whole password has length 6 and the
character is a digit; otherwise collect int(char).  An empty password
never enters the loop body. -/
def auth_pass_loop (pwLen : Nat) : List Char → Except CommErr (List Nat)
  | [] => .ok []
  | c :: cs =>
    if pwLen ≠ 6 ∨ ¬ c.isDigit then .error .communicationError
    else
      match auth_pass_loop pwLen cs with
      | .ok rest => .ok ((c.toNat - 48) :: rest)
      | .error e => .error e

/-- Client.auth up to the socket send: either the local validation error,
or the exact bytes that are sent over the socket. -/
def auth_request (device_type software_version : Nat) (password : List Char) :
    Except CommErr (List Nat) :=
  match auth_pass_loop password.length password with
  | .ok pa => .ok (auth_frame device_type pa software_version)
  | .error e => .error e

/-- XOR of all bytes of a list, the quantity the checksum invariant is
stated over. -/
def xor_all (l : List Nat) : Nat := l.foldl (fun a b => a ^^^ b) 0

/-- A frame satisfies the wire checksum invariant when its trailing byte
equals XOR of all preceding bytes XOR 0xFF. -/
def checksum_ok (frame : List Nat) : Bool :=
  frame.getLast? == some ((xor_all frame.dropLast ^^^ 0xFF) &&& 0xFF)

/-- The value of the 2-byte big-endian length field of a frame. -/
def length_field (frame : List Nat) : Except PyErr Nat :=
  merge_octets (pySlice frame 4 6)

/-- The payload of an encoded frame: everything between the 8-byte
header and the trailing checksum byte. -/
def payload_of (frame : List Nat) : List Nat :=
  pySlice frame 8 (frame.length - 1)

/-- The processed status dict built by AmtCoordinator._async_update_data
on a successful poll. -/
structure ProcessedData where
  siren : Bool
  status : String
  zonesFiring : Bool
  zonesClosed : Bool
  batteryStatus : String
  tamper : Bool
  zones : List (Nat × String)
  deriving DecidableEq, Repr

/-- The coordinator attribute self.paired_zones: either a dict (possibly
empty) or Python None (get_paired_sensors returns None when its bitmap
loop fails). -/
inductive PyPaired where
  | pynone
  | pdict (entries : List (Nat × Bool))
  deriving DecidableEq, Repr

/-- Python truthiness of self.paired_zones: None and the empty dict are
falsy. -/
def truthy : PyPaired → Bool
  | .pynone => false
  | .pdict l => !l.isEmpty

/-- The mutable attributes of AmtCoordinator that
_async_update_data reads and writes. -/
structure CoordState where
  stored_status : Option ProcessedData
  paired_zones : PyPaired
  next_update : Nat
  attempt : Nat
  deriving DecidableEq, Repr

/-- Outcome of the network interactions of one poll cycle: either some
call among connect/auth/status/get_paired_sensors raised an exception,
or they all completed, yielding the decoded status (None or a dict) and
the result a paired-sensor fetch would produce. -/
inductive PollEnv where
  | raise
  | ok (status : Option PanelData) (fetched : PyPaired)
  deriving DecidableEq, Repr

/-- AmtCoordinator._async_update_data as a state transition: given the
current attributes, the current time (seconds), and the network outcome,
produce the updated attributes and the value returned to the caller.
Mirrors the source: the attempt counter is incremented on entry; a call
inside the backoff window returns stored_status untouched; paired zones
are fetched before the status-is-None check; a None status is returned
as None without touching the backoff state; iterating a None
paired_zones raises TypeError, which the except clause turns into a
backoff step; a success stores the processed dict, resets the attempt
counter and allows the next poll immediately. -/
def update_data (st : CoordState) (now : Nat) (env : PollEnv) :
    CoordState × Option ProcessedData :=
  let attempt := st.attempt + 1
  if now < st.next_update then
    ({ st with attempt := attempt }, st.stored_status)
  else
    match env with
    | .raise =>
      ({ st with attempt := attempt, next_update := now + 2 ^ attempt },
       st.stored_status)
    | .ok status fetched =>
      let paired := if truthy st.paired_zones then st.paired_zones else fetched
      match status with
      | none => ({ st with attempt := attempt, paired_zones := paired }, none)
      | some s =>
        match paired with
        | .pynone =>
          ({ st with
              attempt := attempt,
              paired_zones := paired,
              next_update := now + 2 ^ attempt }, st.stored_status)
        | .pdict pd =>
          let d : ProcessedData :=
            { siren := s.siren,
              status := s.status,
              zonesFiring := s.zonesFiring,
              zonesClosed := s.zonesClosed,
              batteryStatus := s.batteryStatus,
              tamper := s.tamper,
              zones := pd.map (fun e => (e.1, (s.zones.lookup e.1).getD "normal")) }
          ({ stored_status := some d,
             paired_zones := paired,
             next_update := now,
             attempt := 0 }, some d)


/-- An in-range Python index read returns the getD value. -/
theorem get?_eq_some_getD (l : List Nat) (i : Nat) (h : i < l.length) :
    l.get? i = some (l.getD i 0) := by
  simp [List.get?_eq_getElem?, List.getElem?_eq_getElem h, List.getD_eq_getElem l 0 h]

/-- The getElem? form of an in-range read. -/
theorem getElem?_eq_getD (l : List Nat) (i : Nat) (h : i < l.length) :
    l[i]? = some (l.getD i 0) := by
  simp [List.getElem?_eq_getElem h, List.getD_eq_getElem l 0 h]

/-- The decoder body evaluated on any payload of at least 22 bytes:
every field in terms of the payload bytes. -/
theorem decode_payload_of_le (p : List Nat) (h : 22 ≤ p.length) :
    decode_payload p = .ok (some
      { model := if p.getD 0 0 = 0x8b then "AMT-8000" else "Unknown",
        version := toString (p.getD 1 0) ++ "." ++ toString (p.getD 2 0) ++
          "." ++ toString (p.getD 3 0),
        status := armed_label (p.getD 20 0),
        zonesFiring := decide (0 < p.getD 20 0 &&& 0x8),
        zonesClosed := decide (0 < p.getD 20 0 &&& 0x4),
        siren := decide (0 < p.getD 20 0 &&& 0x2),
        zones := build_zones p,
        batteryStatus :=
          if 135 ≤ p.length then battery_label (p.getD 134 0) else "unknown",
        tamper :=
          if 72 ≤ p.length then decide (0 < p.getD 71 0 &&& 2) else false }) := by
  unfold decode_payload pyGet
  rw [if_neg (by omega), get?_eq_some_getD p 0 (by omega)]
  unfold build_status_fields get_status battery_status_for
  rw [get?_eq_some_getD p 1 (by omega), get?_eq_some_getD p 2 (by omega),
      get?_eq_some_getD p 3 (by omega), get?_eq_some_getD p 20 (by omega)]
  by_cases hb : 135 ≤ p.length <;> by_cases ht : 72 ≤ p.length
  · simp only [if_pos hb, if_pos ht,
      get?_eq_some_getD p 134 (by omega), get?_eq_some_getD p 71 (by omega)]
    rfl
  · simp only [if_pos hb, if_neg ht, get?_eq_some_getD p 134 (by omega)]
    rfl
  · simp only [if_neg hb, if_pos ht, get?_eq_some_getD p 71 (by omega)]
    rfl
  · simp only [if_neg hb, if_neg ht]
    rfl

/-- Keys produced by the zone loop starting at index i with n iterations
all lie in i+1 .. i+n: any other key is absent. -/
theorem build_zones_loop_lookup_none (p : List Nat) :
    ∀ n i m, m < i + 1 ∨ i + n < m →
      (build_zones_loop p i n).lookup m = none := by
  intro n
  induction n with
  | zero => intro i m h; rfl
  | succ k ih =>
    intro i m h
    unfold build_zones_loop
    cases hg : p.get? (84 + i) with
    | none => rfl
    | some zb =>
      dsimp only
      by_cases hz : zone_problems zb = []
      · rw [if_pos hz, List.nil_append]
        exact ih (i + 1) m (by omega)
      · have hne : (m == i + 1) = false := by
          simp only [beq_eq_false_iff_ne, ne_eq]
          omega
        rw [if_neg hz]
        simp only [List.singleton_append, List.lookup, hne]
        exact ih (i + 1) m (by omega)

/-- Within range, the zone loop stores exactly the per-byte problem
string, and omits the zone when its problem list is empty. -/
theorem build_zones_loop_lookup_eq (p : List Nat) :
    ∀ n i k, i ≤ k → k < i + n → 84 + i + n ≤ p.length →
      (build_zones_loop p i n).lookup (k + 1) =
        (if zone_problems (p.getD (84 + k) 0) = [] then none
         else some (String.intercalate "," (zone_problems (p.getD (84 + k) 0)))) := by
  intro n
  induction n with
  | zero => intro i k h1 h2 h3; exact absurd (lt_of_le_of_lt h1 h2) (by omega)
  | succ nn ih =>
    intro i k h1 h2 h3
    unfold build_zones_loop
    rw [get?_eq_some_getD p (84 + i) (by omega)]
    dsimp only
    by_cases hk : k = i
    · subst hk
      by_cases hz : zone_problems (p.getD (84 + k) 0) = []
      · rw [if_pos hz, if_pos hz, List.nil_append]
        exact build_zones_loop_lookup_none p nn (k + 1) (k + 1) (by omega)
      · rw [if_neg hz, if_neg hz]
        simp only [List.singleton_append, List.lookup, beq_self_eq_true]
    · have hik : i < k := lt_of_le_of_ne h1 fun a => hk a.symm
      by_cases hz : zone_problems (p.getD (84 + i) 0) = []
      · rw [if_pos hz, List.nil_append]
        exact ih (i + 1) k (by omega) (by omega) (by omega)
      · have hne : (k + 1 == i + 1) = false := by
          simp only [beq_eq_false_iff_ne, ne_eq]
          omega
        rw [if_neg hz]
        simp only [List.singleton_append, List.lookup, hne]
        exact ih (i + 1) k (by omega) (by omega) (by omega)

/-- Looking a key up in a map that rewrites each value as a function of
its key gives that function of the key, when the key is present. -/
theorem lookup_map_value (f : Nat → String) (z : Nat) :
    ∀ l : List (Nat × Bool),
      (l.map (fun e => (e.1, f e.1))).lookup z = (l.lookup z).map (fun _ => f z) := by
  intro l
  induction l with
  | nil => rfl
  | cons a t ih =>
    simp only [List.map_cons, List.lookup]
    cases hza : z == a.1 with
    | true =>
      have : z = a.1 := eq_of_beq hza
      simp [this]
    | false => simpa [hza] using ih

/-- Appending the checksum that calculate_checksum computes yields a
frame whose trailing byte satisfies the wire invariant. -/
theorem checksum_ok_concat (data : List Nat) :
    checksum_ok (data ++ [calculate_checksum data]) = true := by
  unfold checksum_ok calculate_checksum xor_all
  rw [List.dropLast_concat, List.getLast?_concat]
  simp

/-- The header slice of a composed frame is the header's own slice. -/
theorem pySlice_header (hdr rest : List Nat) (h : 6 ≤ hdr.length) :
    pySlice (hdr ++ rest) 4 6 = pySlice hdr 4 6 := by
  unfold pySlice
  rw [List.drop_append_of_le_length (by omega),
      List.take_append_of_le_length (by simp [List.length_drop]; omega)]

/-- Slicing at the header length recovers exactly the payload of a
composed frame, whatever single byte trails it. -/
theorem pySlice_payload (hdr payload : List Nat) (c : Nat) (h : hdr.length = 8) :
    pySlice (hdr ++ payload ++ [c]) 8 (8 + payload.length) = payload := by
  unfold pySlice
  rw [List.append_assoc, ← h, List.drop_left]
  simp [h]

/-- A list with at least two elements starts with two cons cells. -/
theorem exists_cons_cons (l : List Nat) (h : 2 ≤ l.length) :
    ∃ a b t, l = a :: b :: t := by
  match l, h with
  | a :: b :: t, _ => exact ⟨a, b, t, rfl⟩

/-- The decoder body never raises on payloads of at least 22 bytes nor on
shorter ones: it is total. -/
theorem decode_payload_isOk (p : List Nat) : ∃ r, decode_payload p = .ok r := by
  by_cases h : p.length < 22
  · exact ⟨none, by unfold decode_payload; rw [if_pos h]⟩
  · refine ⟨_, decode_payload_of_le p (by omega)⟩

/-- The exception path of the coordinator: attempt is bumped, the
backoff window is set to now plus 2 to the bumped attempt count, and the
previous stored status is returned unchanged. -/
theorem update_data_raise (st : CoordState) (now : Nat)
    (h : ¬ now < st.next_update) :
    update_data st now .raise =
      ({ st with
          attempt := st.attempt + 1,
          next_update := now + 2 ^ (st.attempt + 1) },
       st.stored_status) := by
  unfold update_data
  rw [if_neg h]

/-- The success path of the coordinator with a cached nonempty paired
dict: the processed dict is stored and returned, the attempt counter is
reset, and the next poll is allowed immediately. -/
theorem update_data_success (st : CoordState) (now : Nat) (s : PanelData)
    (f : PyPaired) (pd : List (Nat × Bool)) (hp : st.paired_zones = .pdict pd)
    (hpd : pd ≠ []) (h : ¬ now < st.next_update) :
    update_data st now (.ok (some s) f) =
      ({ stored_status := some ⟨s.siren, s.status, s.zonesFiring, s.zonesClosed,
           s.batteryStatus, s.tamper,
           pd.map (fun e => (e.1, (s.zones.lookup e.1).getD "normal"))⟩,
         paired_zones := .pdict pd,
         next_update := now,
         attempt := 0 },
       some ⟨s.siren, s.status, s.zonesFiring, s.zonesClosed,
         s.batteryStatus, s.tamper,
         pd.map (fun e => (e.1, (s.zones.lookup e.1).getD "normal"))⟩) := by
  unfold update_data
  rw [if_neg h, hp]
  have ht : truthy (.pdict pd) = true := by
    simp [truthy, hpd]
  simp [ht]

/-- C7 counterexample: on the empty raw frame the status decoder does
not return None — it raises IndexError from merge_octets, because the
header length read sits outside every try block.  This refutes the
claim that the decoder never raises and returns None whenever the
header fields cannot be read. -/
theorem C7_counterexample : build_status [] = .error .indexError := by rfl

/-- C7 as amended: for every raw frame of at least 6 bytes (so that the
length field at bytes 4-5 is readable) the status decoder never raises:
it returns either a status or None.  On shorter frames merge_octets
raises an uncaught IndexError. -/
theorem C7_theorem (data : List Nat) (h : 6 ≤ data.length) :
    ∃ r, build_status data = .ok r := by
  obtain ⟨a, b, t, habt⟩ := exists_cons_cons (pySlice data 4 6) (by
    unfold pySlice
    simp only [List.length_take, List.length_drop]
    omega)
  unfold build_status
  rw [habt]
  exact decode_payload_isOk _

/-- Witness for C7 at a concrete 6-byte frame. -/
theorem C7_witness :
    6 ≤ ([0, 0, 0, 0, 0, 0] : List Nat).length ∧
    ∃ r, build_status [0, 0, 0, 0, 0, 0] = .ok r :=
  ⟨by decide, C7_theorem [0, 0, 0, 0, 0, 0] (by decide)⟩

/-- C9: a payload shorter than 22 bytes decodes to None; a payload of
exactly 71 bytes decodes with tamper = false (the offset-71 read is
guarded by length at least 72); a payload of exactly 134 bytes decodes
with batteryStatus unknown (the offset-134 read is guarded by length at
least 135). -/
theorem C9_theorem :
    (∀ p : List Nat, p.length < 22 → decode_payload p = .ok none) ∧
    (∀ p : List Nat, p.length = 71 →
      ∃ s, decode_payload p = .ok (some s) ∧ s.tamper = false) ∧
    (∀ p : List Nat, p.length = 134 →
      ∃ s, decode_payload p = .ok (some s) ∧ s.batteryStatus = "unknown") := by
  refine ⟨?_, ?_, ?_⟩
  · intro p h
    unfold decode_payload
    rw [if_pos h]
  · intro p h
    refine ⟨_, decode_payload_of_le p (by omega), ?_⟩
    simp [h]
  · intro p h
    refine ⟨_, decode_payload_of_le p (by omega), ?_⟩
    simp [h]

/-- Witness for C9 at concrete payloads of lengths 0, 71 and 134. -/
theorem C9_witness :
    decode_payload [] = .ok none ∧
    (∃ s, decode_payload (List.replicate 71 0) = .ok (some s) ∧
      s.tamper = false) ∧
    (∃ s, decode_payload (List.replicate 134 0) = .ok (some s) ∧
      s.batteryStatus = "unknown") :=
  ⟨C9_theorem.1 [] (by decide),
   C9_theorem.2.1 (List.replicate 71 0) (by decide),
   C9_theorem.2.2 (List.replicate 134 0) (by decide)⟩

/-- C6 counterexample: a concrete 22-byte payload whose offset-20 status
byte is 0b01000010 decodes to armedState unknown, not disarmed: bits 5-6
of 0b01000010 are 10, which matches no documented armed state.  This
refutes the claim that such a payload decodes to Disarmed. -/
theorem C6_counterexample :
    decode_payload (List.replicate 20 0 ++ [0x42, 0]) =
      .ok (some ⟨"Unknown", "0.0.0", "unknown", false, false, true, [],
        "unknown", false⟩) ∧
    "unknown" ≠ "disarmed" :=
  ⟨by rfl, by decide⟩

/-- C6 as amended: every payload of at least 22 bytes whose offset-20
status byte equals 0b01000010 decodes with armedState unknown (bits 5-6
of the byte are 10, mapped to unknown) and siren true (bit 1 of the
byte). -/
theorem C6_theorem (p : List Nat) (h : 22 ≤ p.length)
    (hb : p.getD 20 0 = 0x42) :
    ∃ s, decode_payload p = .ok (some s) ∧
      s.status = "unknown" ∧ s.siren = true := by
  refine ⟨_, decode_payload_of_le p h, ?_, ?_⟩
  · rw [hb]
    exact (by decide : armed_label 0x42 = "unknown")
  · rw [hb]
    exact (by decide : decide (0 < 0x42 &&& 2) = true)

/-- Witness for C6 at a concrete payload. -/
theorem C6_witness :
    22 ≤ (List.replicate 20 0 ++ [0x42, 0]).length ∧
    (List.replicate 20 0 ++ [0x42, 0]).getD 20 0 = 0x42 ∧
    ∃ s, decode_payload (List.replicate 20 0 ++ [0x42, 0]) = .ok (some s) ∧
      s.status = "unknown" ∧ s.siren = true :=
  ⟨by decide, by decide,
   C6_theorem (List.replicate 20 0 ++ [0x42, 0]) (by decide) (by decide)⟩

/-- C5 counterexample: a payload whose first zone byte is 0b00000010
(bit 1 only) yields the problem string comm_failure, not tamper — the
code maps bit 1 to communication failure and bit 4 to tamper, the
opposite of the claim; and a nonzero zone byte 0b01000000 (bit 6) yields
no zone entry at all, refuting the claim that a zone with any bit set is
present. -/
theorem C5_counterexample :
    (build_zones (List.replicate 84 0 ++ [0x02])).lookup 1 =
      some "comm_failure" ∧
    some "comm_failure" ≠ some "tamper" ∧
    build_zones (List.replicate 84 0 ++ [0x40]) = [] :=
  ⟨by rfl, by decide, by rfl⟩

/-- C5 as amended: under the default layout, the zone block starts at
payload offset 84 and min(64, len(payload) - 84) zones are read; the
byte bits map to open_triggered (bit 0), comm_failure (bit 1), bypassed
(bit 2), low_battery (bit 3), tamper (bit 4), memory_triggered (bit 5);
a zone whose byte sets none of bits 0-5 is omitted from the mapping, a
zone whose byte sets any of bits 0-5 is present keyed by its 1-based
zone number with the comma-joined problem string, and no key outside
1 .. min(64, len(payload) - 84) ever appears. -/
theorem C5_theorem :
    (zone_problems 0x01 = ["open_triggered"] ∧
     zone_problems 0x02 = ["comm_failure"] ∧
     zone_problems 0x04 = ["bypassed"] ∧
     zone_problems 0x08 = ["low_battery"] ∧
     zone_problems 0x10 = ["tamper"] ∧
     zone_problems 0x20 = ["memory_triggered"] ∧
     zone_problems 0x00 = [] ∧ zone_problems 0x40 = []) ∧
    (∀ (p : List Nat) (i : Nat), i < min 64 (p.length - 84) →
      (build_zones p).lookup (i + 1) =
        (if zone_problems (p.getD (84 + i) 0) = [] then none
         else some (String.intercalate "," (zone_problems (p.getD (84 + i) 0))))) ∧
    (∀ (p : List Nat) (k : Nat), k = 0 ∨ min 64 (p.length - 84) < k →
      (build_zones p).lookup k = none) := by
  refine ⟨by decide, ?_, ?_⟩
  · intro p i hi
    unfold build_zones
    exact build_zones_loop_lookup_eq p (min 64 (p.length - 84)) 0 i
      (by omega) (by omega) (by omega)
  · intro p k hk
    unfold build_zones
    exact build_zones_loop_lookup_none p (min 64 (p.length - 84)) 0 k (by omega)

/-- Witness for C5 at a concrete 85-byte payload. -/
theorem C5_witness :
    (build_zones (List.replicate 84 0 ++ [0x02])).lookup (0 + 1) =
      (if zone_problems ((List.replicate 84 0 ++ [0x02]).getD (84 + 0) 0) = []
       then none
       else some (String.intercalate ","
         (zone_problems ((List.replicate 84 0 ++ [0x02]).getD (84 + 0) 0)))) ∧
    (build_zones (List.replicate 84 0 ++ [0x02])).lookup 65 = none :=
  ⟨C5_theorem.2.1 (List.replicate 84 0 ++ [0x02]) 0 (by decide),
   C5_theorem.2.2 (List.replicate 84 0 ++ [0x02]) 65 (by decide)⟩

/-- The header slice ignores a payload and trailing byte appended after
an 8-byte header. -/
theorem pySlice_header3 (hdr payload : List Nat) (c : Nat) (h : 6 ≤ hdr.length) :
    pySlice (hdr ++ payload ++ [c]) 4 6 = pySlice hdr 4 6 := by
  rw [List.append_assoc]
  exact pySlice_header hdr (payload ++ [c]) h

/-- C2 counterexample: a status-response frame whose trailing checksum
byte is corrupted (99 instead of the correct 231) fails the checksum
invariant, yet build_status decodes it to a full status — the receive
path never validates the checksum, so a mismatched frame is decoded
further rather than rejected. -/
theorem C2_counterexample :
    checksum_ok ([0, 0, 0, 0, 0, 24, 0, 0] ++ List.replicate 22 0 ++ [99]) =
      false ∧
    build_status ([0, 0, 0, 0, 0, 24, 0, 0] ++ List.replicate 22 0 ++ [99]) =
      .ok (some ⟨"Unknown", "0.0.0", "disarmed", false, false, false, [],
        "unknown", false⟩) :=
  ⟨by rfl, by rfl⟩

/-- C2 as amended: every frame the client encodes (auth, status, arm,
disarm, panic, paired-sensors) carries a trailing checksum byte equal to
XOR of all preceding bytes XOR 0xFF; the receive path, however, performs
no checksum validation: build_status never inspects the trailing byte,
so its result on a frame is unchanged under any corruption of that
byte. -/
theorem C2_theorem :
    (∀ dt pa sv, checksum_ok (auth_frame dt pa sv) = true) ∧
    checksum_ok status_frame = true ∧
    (∀ part, checksum_ok (arm_frame part) = true) ∧
    (∀ part, checksum_ok (disarm_frame part) = true) ∧
    (∀ t, checksum_ok (panic_frame t) = true) ∧
    checksum_ok paired_frame = true ∧
    (∀ (hdr payload : List Nat) (c c2 : Nat), hdr.length = 8 →
      merge_octets (pySlice hdr 4 6) = .ok (payload.length + 2) →
      build_status (hdr ++ payload ++ [c]) =
        build_status (hdr ++ payload ++ [c2])) := by
  refine ⟨fun dt pa sv => checksum_ok_concat _, checksum_ok_concat _,
    fun part => checksum_ok_concat _, fun part => checksum_ok_concat _,
    fun t => checksum_ok_concat _, checksum_ok_concat _, ?_⟩
  intro hdr payload c c2 h8 hlen
  unfold build_status
  rw [pySlice_header3 hdr payload c (by omega),
      pySlice_header3 hdr payload c2 (by omega), hlen]
  dsimp only
  have hsub : payload.length + 2 - 2 = payload.length := by omega
  rw [hsub, pySlice_payload hdr payload c h8, pySlice_payload hdr payload c2 h8]

/-- Witness for C2 on a concrete auth frame and a concrete pair of
status-response frames differing only in the trailing byte. -/
theorem C2_witness :
    checksum_ok (auth_frame 1 [1, 2, 3, 4, 5, 6] 16) = true ∧
    build_status ([0, 0, 0, 0, 0, 24, 0, 0] ++ List.replicate 22 0 ++ [0]) =
      build_status ([0, 0, 0, 0, 0, 24, 0, 0] ++ List.replicate 22 0 ++ [1]) :=
  ⟨C2_theorem.1 1 [1, 2, 3, 4, 5, 6] 16,
   C2_theorem.2.2.2.2.2.2 [0, 0, 0, 0, 0, 24, 0, 0] (List.replicate 22 0) 0 1
     (by rfl) (by rfl)⟩

/-- C3 counterexample: the status frame's length field is 2, the byte
count of command plus payload, while command + payload + checksum would
be 3 — the length field does not cover the checksum byte.  This refutes
the claim that length equals 2 + len(payload) + 1. -/
theorem C3_counterexample :
    length_field status_frame = .ok 2 ∧
    (payload_of status_frame).length = 0 ∧
    (2 : Nat) ≠ 2 + 0 + 1 :=
  ⟨by rfl, by rfl, by decide⟩

/-- C3 as amended: in every frame the client encodes (auth with its six
password digits, status, arm, disarm, panic, paired-sensors) the 2-byte
big-endian length field equals the byte count of command + payload,
i.e. 2 + len(payload), excluding the trailing checksum byte. -/
theorem C3_theorem :
    (∀ dt pa sv, pa.length = 6 →
      length_field (auth_frame dt pa sv) =
        .ok (2 + (payload_of (auth_frame dt pa sv)).length)) ∧
    length_field status_frame = .ok (2 + (payload_of status_frame).length) ∧
    (∀ part, length_field (arm_frame part) =
      .ok (2 + (payload_of (arm_frame part)).length)) ∧
    (∀ part, length_field (disarm_frame part) =
      .ok (2 + (payload_of (disarm_frame part)).length)) ∧
    (∀ t, length_field (panic_frame t) =
      .ok (2 + (payload_of (panic_frame t)).length)) ∧
    length_field paired_frame = .ok (2 + (payload_of paired_frame).length) := by
  refine ⟨?_, by rfl, ?_, ?_, ?_, by rfl⟩
  · intro dt pa sv h
    have hfl : (auth_frame dt pa sv).length = 17 := by
      simp [auth_frame, auth_data, dst_id, our_id, cmd_auth, h]
    have hsl : pySlice (auth_frame dt pa sv) 4 6 = [0x00, 0x0a] := by
      simp [auth_frame, auth_data, dst_id, our_id, cmd_auth, pySlice]
    have hpl : (payload_of (auth_frame dt pa sv)).length = 8 := by
      simp [payload_of, pySlice, List.length_take, List.length_drop, hfl]
    rw [length_field, hsl, hpl]
    rfl
  · intro part
    have hfl : (arm_frame part).length = 11 := by
      simp [arm_frame, arm_data, dst_id, our_id, cmd_arm_disarm]
    have hsl : pySlice (arm_frame part) 4 6 = [0x00, 0x04] := by
      simp [arm_frame, arm_data, dst_id, our_id, cmd_arm_disarm, pySlice]
    have hpl : (payload_of (arm_frame part)).length = 2 := by
      simp [payload_of, pySlice, List.length_take, List.length_drop, hfl]
    rw [length_field, hsl, hpl]
    rfl
  · intro part
    have hfl : (disarm_frame part).length = 11 := by
      simp [disarm_frame, disarm_data, dst_id, our_id, cmd_arm_disarm]
    have hsl : pySlice (disarm_frame part) 4 6 = [0x00, 0x04] := by
      simp [disarm_frame, disarm_data, dst_id, our_id, cmd_arm_disarm, pySlice]
    have hpl : (payload_of (disarm_frame part)).length = 2 := by
      simp [payload_of, pySlice, List.length_take, List.length_drop, hfl]
    rw [length_field, hsl, hpl]
    rfl
  · intro t
    have hfl : (panic_frame t).length = 10 := by
      simp [panic_frame, panic_data, dst_id, our_id, cmd_panic]
    have hsl : pySlice (panic_frame t) 4 6 = [0x00, 0x03] := by
      simp [panic_frame, panic_data, dst_id, our_id, cmd_panic, pySlice]
    have hpl : (payload_of (panic_frame t)).length = 1 := by
      simp [payload_of, pySlice, List.length_take, List.length_drop, hfl]
    rw [length_field, hsl, hpl]
    rfl

/-- Witness for C3 on a concrete auth frame and a concrete arm frame. -/
theorem C3_witness :
    length_field (auth_frame 1 [1, 2, 3, 4, 5, 6] 16) =
      .ok (2 + (payload_of (auth_frame 1 [1, 2, 3, 4, 5, 6] 16)).length) ∧
    length_field (arm_frame 3) = .ok (2 + (payload_of (arm_frame 3)).length) :=
  ⟨C3_theorem.1 1 [1, 2, 3, 4, 5, 6] 16 (by rfl), C3_theorem.2.2.1 3⟩

/-- C4: evaluation of Client.auth at the failing input, the empty
password.  Because the length check sits inside the per-character loop,
the empty password never executes it: validation succeeds with zero
digits and an 11-byte auth frame is sent over the socket, contradicting
the documented rejection of every password that is not exactly 6 digits.
Any nonempty invalid password is rejected before the send, as the second
and third conjuncts show. -/
theorem C4_theorem :
    auth_request 1 0x10 [] = .ok (auth_frame 1 [] 0x10) ∧
    auth_request 1 0x10 ['1', '2', '3', '4', '5'] =
      .error .communicationError ∧
    auth_request 1 0x10 ['1', '2', '3', '4', '5', 'x'] =
      .error .communicationError :=
  ⟨by rfl, by rfl, by rfl⟩

/-- C1 counterexample: a poll at time 5 (outside the backoff window of a
state whose previous poll succeeded) in which the status decoder returns
None.  The claim says such a failing cycle updates the backoff window
and returns the previous good status; the coordinator instead returns
None — although a success has occurred — and leaves next_update
untouched. -/
theorem C1_counterexample :
    (update_data
        ⟨some ⟨false, "disarmed", false, false, "unknown", false, []⟩,
          .pdict [(1, true)], 0, 0⟩ 5 (.ok none (.pdict []))).2 = none ∧
    (update_data
        ⟨some ⟨false, "disarmed", false, false, "unknown", false, []⟩,
          .pdict [(1, true)], 0, 0⟩ 5 (.ok none (.pdict []))).1.next_update = 0 ∧
    some (⟨false, "disarmed", false, false, "unknown", false, []⟩ : ProcessedData) ≠
      none :=
  ⟨by rfl, by rfl, by decide⟩

/-- C1 as amended: every poll cycle that fails with a raised exception
(connection, auth, or any I/O exception) increments the attempt counter,
sets next_update to now + 2 ^ attempt seconds, and returns the previous
stored status unchanged; but a poll cycle in which the status decoder
returns None instead returns None to the caller and leaves both the
stored status and the backoff state untouched, even after earlier
successes. -/
theorem C1_theorem :
    (∀ (st : CoordState) (now : Nat), ¬ now < st.next_update →
      update_data st now .raise =
        ({ st with
            attempt := st.attempt + 1,
            next_update := now + 2 ^ (st.attempt + 1) },
         st.stored_status)) ∧
    (∀ (st : CoordState) (now : Nat) (f : PyPaired), ¬ now < st.next_update →
      (update_data st now (.ok none f)).2 = none ∧
      (update_data st now (.ok none f)).1.next_update = st.next_update ∧
      (update_data st now (.ok none f)).1.stored_status = st.stored_status) := by
  constructor
  · intro st now h
    exact update_data_raise st now h
  · intro st now f h
    unfold update_data
    rw [if_neg h]
    exact ⟨rfl, rfl, rfl⟩

/-- Witness for C1 on concrete states. -/
theorem C1_witness :
    update_data ⟨none, .pdict [], 0, 0⟩ 3 .raise =
      ({ stored_status := none, paired_zones := .pdict [],
         next_update := 3 + 2 ^ 1, attempt := 1 }, none) ∧
    (update_data ⟨none, .pdict [], 0, 0⟩ 3 (.ok none .pynone)).2 = none :=
  ⟨C1_theorem.1 ⟨none, .pdict [], 0, 0⟩ 3 (by decide),
   (C1_theorem.2 ⟨none, .pdict [], 0, 0⟩ 3 .pynone (by decide)).1⟩

/-- C8: the coordinator backoff state machine.  From a fresh state a
first failing cycle sets next_update to now + 2; a second consecutive
failing cycle sets it to its own now + 4; every call inside the backoff
window returns the stored status unchanged without attempting any
network interaction (the result does not depend on the network outcome
at all); and a successful poll resets the attempt counter to 0. -/
theorem C8_theorem :
    (∀ (st : CoordState) (now : Nat), st.attempt = 0 → ¬ now < st.next_update →
      (update_data st now .raise).1.next_update = now + 2) ∧
    (∀ (st : CoordState) (now now2 : Nat), st.attempt = 0 →
      ¬ now < st.next_update →
      ¬ now2 < (update_data st now .raise).1.next_update →
      (update_data (update_data st now .raise).1 now2 .raise).1.next_update =
        now2 + 4) ∧
    (∀ (st : CoordState) (now : Nat) (env env2 : PollEnv),
      now < st.next_update →
      update_data st now env = ({ st with attempt := st.attempt + 1 },
        st.stored_status) ∧
      update_data st now env = update_data st now env2) ∧
    (∀ (st : CoordState) (now : Nat) (s : PanelData) (f : PyPaired)
        (pd : List (Nat × Bool)),
      st.paired_zones = .pdict pd → pd ≠ [] → ¬ now < st.next_update →
      (update_data st now (.ok (some s) f)).1.attempt = 0) := by
  refine ⟨?_, ?_, ?_, ?_⟩
  · intro st now h0 h1
    rw [update_data_raise st now h1, h0]
    rfl
  · intro st now now2 h0 h1 h2
    rw [update_data_raise st now h1] at h2 ⊢
    rw [update_data_raise _ now2 h2, h0]
    rfl
  · intro st now env env2 h
    constructor
    · unfold update_data
      rw [if_pos h]
    · unfold update_data
      rw [if_pos h, if_pos h]
  · intro st now s f pd hp hpd h
    rw [update_data_success st now s f pd hp hpd h]

/-- Witness for C8 on concrete states. -/
theorem C8_witness :
    (update_data ⟨none, .pdict [], 0, 0⟩ 1 .raise).1.next_update = 1 + 2 ∧
    (update_data (update_data ⟨none, .pdict [], 0, 0⟩ 1 .raise).1 9
        .raise).1.next_update = 9 + 4 ∧
    update_data ⟨none, .pdict [(1, true)], 7, 0⟩ 2 .raise =
      ({ stored_status := none, paired_zones := .pdict [(1, true)],
         next_update := 7, attempt := 1 }, none) ∧
    (update_data ⟨none, .pdict [(2, true)], 0, 3⟩ 4
        (.ok (some ⟨"AMT-8000", "1.0.0", "disarmed", false, false, false, [],
          "unknown", false⟩) .pynone)).1.attempt = 0 :=
  ⟨C8_theorem.1 ⟨none, .pdict [], 0, 0⟩ 1 (by rfl) (by decide),
   C8_theorem.2.1 ⟨none, .pdict [], 0, 0⟩ 1 9 (by rfl) (by decide) (by decide),
   (C8_theorem.2.2.1 ⟨none, .pdict [(1, true)], 7, 0⟩ 2 .raise
     (.ok none .pynone) (by decide)).1,
   C8_theorem.2.2.2 ⟨none, .pdict [(2, true)], 0, 3⟩ 4
     ⟨"AMT-8000", "1.0.0", "disarmed", false, false, false, [], "unknown",
       false⟩ .pynone [(2, true)] (by rfl) (by decide) (by decide)⟩

/-- C10: after a successful poll with the paired-zone set cached (a
nonempty paired dict), the zones mapping of the returned status has
exactly the paired zone ids as its keys; every paired zone id maps to
the decoder's reported problem string when present and to normal
otherwise, and no unpaired zone id appears. -/
theorem C10_theorem (st : CoordState) (now : Nat) (s : PanelData)
    (f : PyPaired) (pd : List (Nat × Bool)) (hp : st.paired_zones = .pdict pd)
    (hpd : pd ≠ []) (h : ¬ now < st.next_update) :
    ∃ d, (update_data st now (.ok (some s) f)).2 = some d ∧
      (∀ z : Nat, (d.zones.lookup z).isSome ↔ (pd.lookup z).isSome) ∧
      (∀ z : Nat, (pd.lookup z).isSome →
        d.zones.lookup z = some ((s.zones.lookup z).getD "normal")) := by
  rw [update_data_success st now s f pd hp hpd h]
  refine ⟨_, rfl, ?_, ?_⟩
  · intro z
    rw [lookup_map_value (fun e => (s.zones.lookup e).getD "normal") z pd]
    cases pd.lookup z <;> simp
  · intro z hz
    rw [lookup_map_value (fun e => (s.zones.lookup e).getD "normal") z pd]
    cases hzz : pd.lookup z with
    | none => rw [hzz] at hz; simp at hz
    | some v => rfl

/-- Witness for C10 on a concrete state with paired zones 2 and 5, where
the decoder reports a problem for zone 2 only. -/
theorem C10_witness :
    ∃ d,
      (update_data ⟨none, .pdict [(2, true), (5, true)], 0, 0⟩ 1
          (.ok (some ⟨"AMT-8000", "1.0.0", "disarmed", false, false, false,
            [(2, "open_triggered")], "unknown", false⟩) .pynone)).2 = some d ∧
      (∀ z : Nat, (d.zones.lookup z).isSome ↔
        (([(2, true), (5, true)] : List (Nat × Bool)).lookup z).isSome) ∧
      (∀ z : Nat, (([(2, true), (5, true)] : List (Nat × Bool)).lookup z).isSome →
        d.zones.lookup z = some
          ((([(2, "open_triggered")] : List (Nat × String)).lookup z).getD
            "normal")) :=
  C10_theorem ⟨none, .pdict [(2, true), (5, true)], 0, 0⟩ 1
    ⟨"AMT-8000", "1.0.0", "disarmed", false, false, false,
      [(2, "open_triggered")], "unknown", false⟩ .pynone [(2, true), (5, true)]
    (by rfl) (by decide) (by decide)
